/-
Verification of the Test Responder Server
(Wedjat98/WindowsServerFirewallPortManagerShell, src/open-port-test.py)
against its natural-language specification.

The program is a single-file diagnostic HTTP/HTTPS server.  This file gives a
shallow embedding of its data model and operations:

* `renderBody` / `do_GET` embed the request handler `MyHandler.do_GET`
  (lines 10-50): the status line and Content-type header are written first,
  then the hostname and local IP are resolved, then the HTML body is written.
  A per-request `GetRequest` carries the client address and the outcome of the
  per-request hostname resolution (`none` models a raised resolution error).
* `pyInt`, `classifyArgs`, `parse_args` embed the `argparse` parser built in
  `__main__` (lines 89-101): one required positional `port` of type int and a
  single declared option `--ssl` (store_true).  Option recognition follows
  argparse semantics for this parser: only `--ssl` (and its unambiguous
  `--`-prefixed abbreviations) is recognised; any other `-`-prefixed token
  that is not a negative number is an unrecognised argument.
* `create_test_server` embeds `create_test_server` (lines 7-87): TCP socket
  creation (OverflowError for a port outside 0-65535, bind failure for a busy
  or privileged port), the `ssl.wrap_socket` upgrade (failing when key.pem or
  cert.pem is missing or the pair does not match), the standard-library
  `serve_forever` accept loop (per-connection errors are caught and the loop
  continues; KeyboardInterrupt leaves the loop), the `except
  KeyboardInterrupt` shutdown message and the `finally: httpd.server_close()`.
* `containsSub` is the substring relation used to state the body-content
  properties.
-/
import Mathlib

set_option maxRecDepth 40000

namespace OpenPortTest

/-! ### Substring machinery over `List Char` -/

/-- `isPrefixCh p s` holds when the character list `p` is a prefix of `s`. -/
def isPrefixCh : List Char → List Char → Bool
  | [], _ => true
  | _ :: _, [] => false
  | p :: ps, c :: cs => p == c && isPrefixCh ps cs

/-- `containsSub pat s` holds when `pat` occurs contiguously inside `s`. -/
def containsSub (pat : List Char) : List Char → Bool
  | [] => isPrefixCh pat []
  | c :: s => isPrefixCh pat (c :: s) || containsSub pat s

/-- String-level substring test: `containsS pat s` holds when `pat` occurs
contiguously in `s`.  (Corresponds to Python's `pat in s`.) -/
def containsS (pat s : String) : Bool :=
  containsSub pat.data s.data

/-! ### The HTML template of `MyHandler.do_GET`

The static chunks below are the literal pieces of the f-string `message`
(source lines 19-49) between the interpolated fields, with Python's doubled
braces rendered as single braces, exactly as the handler writes them. -/

/-- Template text before the first `{port}` field. -/
def chunk0 : String := "\n            <!DOCTYPE html>\n            <html>\n            <head>\n                <title>端口测试成功</title>\n                <meta charset=\"utf-8\">\n                <style>\n                    body \x7b font-family: Arial, sans-serif; margin: 40px; background: #f0f0f0; \x7d\n                    .container \x7b background: white; padding: 30px; border-radius: 10px; box-shadow: 0 2px 10px rgba(0,0,0,0.1); \x7d\n                    .success \x7b color: #28a745; font-size: 24px; font-weight: bold; \x7d\n                    .info \x7b color: #17a2b8; margin: 10px 0; \x7d\n                    .highlight \x7b background: #fff3cd; padding: 10px; border-radius: 5px; margin: 10px 0; \x7d\n                </style>\n            </head>\n            <body>\n                <div class=\"container\">\n                    <div class=\"success\">🎉 端口 "

/-- Template text between `{port}` and `{hostname}`. -/
def chunk1 : String := " 开放成功!</div>\n                    <div class=\"info\">服务器信息:</div>\n                    <div class=\"highlight\">\n                        <strong>主机名:</strong> "

/-- Template text between `{hostname}` and `{local_ip}`. -/
def chunk2 : String := "<br>\n                        <strong>内网IP:</strong> "

/-- Template text between `{local_ip}` and the second `{port}`. -/
def chunk3 : String := "<br>\n                        <strong>监听端口:</strong> "

/-- Template text between the second `{port}` and the protocol label. -/
def chunk4 : String := "<br>\n                        <strong>协议:</strong> "

/-- Template text between the protocol label and `{self.client_address[0]}`. -/
def chunk5 : String := "<br>\n                        <strong>客户端IP:</strong> "

/-- Template text after `{self.client_address[0]}`. -/
def chunk6 : String := "\n                    </div>\n                    <div class=\"info\">✅ 防火墙配置正确</div>\n                    <div class=\"info\">✅ 服务正常运行</div>\n                </div>\n            </body>\n            </html>\n            "

/-- The HTML body written by `MyHandler.do_GET` (source lines 19-50): the
f-string `message` with the interpolated fields `port`, `hostname`,
`local_ip`, `port`, `\"HTTPS\" if use_ssl else \"HTTP\"`, and
`self.client_address[0]`. -/
def renderBody (port : Int) (hostname local_ip : String) (use_ssl : Bool)
    (clientIP : String) : String :=
  chunk0 ++ toString port ++ chunk1 ++ hostname ++ chunk2 ++ local_ip ++
    chunk3 ++ toString port ++ chunk4 ++
    (if use_ssl then "HTTPS" else "HTTP") ++ chunk5 ++ clientIP ++ chunk6

/-! ### The request handler -/

/-- Host information as resolved by `socket.gethostname()` /
`socket.gethostbyname(hostname)`. -/
structure HostInfo where
  hostname : String
  local_ip : String
deriving DecidableEq

/-- One incoming GET request: the request path (present on the handler object
but never read by `do_GET`), the client address seen by the transport layer
(`self.client_address[0]`), and the outcome of the per-request hostname/IP
resolution performed inside the handler (`none` models
`socket.gethostbyname` raising). -/
structure GetRequest where
  path : String
  clientIP : String
  resolved : Option HostInfo
deriving DecidableEq

/-- One write performed on the response stream. -/
inductive Write where
  | status (code : Nat)
  | header (key value : String)
  | body (content : String)
deriving DecidableEq

/-- Embedding of `MyHandler.do_GET` (source lines 10-50), as the ordered list
of writes it performs: `send_response(200)`, then
`send_header(\"Content-type\", \"text/html; charset=utf-8\")` /
`end_headers()`, and only then — after the per-request hostname and local-IP
resolution, which may raise — the HTML body.  When resolution raises, the
handler stops after the headers and writes no body. -/
def do_GET (port : Int) (use_ssl : Bool) (req : GetRequest) : List Write :=
  Write.status 200 ::
    Write.header "Content-type" "text/html; charset=utf-8" ::
      (match req.resolved with
       | none => []
       | some hi =>
         [Write.body (renderBody port hi.hostname hi.local_ip use_ssl req.clientIP)])

/-! ### Command-line parsing (`__main__`, source lines 89-101)

`argparse.ArgumentParser` with one positional `port` of `type=int` and the
single option `--ssl` (`action="store_true"`). -/

/-- ASCII decimal digit test. -/
def isDigitCh (c : Char) : Bool := '0' ≤ c && c ≤ '9'

/-- Accumulator-style decimal evaluation of a digit list. -/
def digitsToNat : List Char → Nat → Nat
  | [], acc => acc
  | c :: cs, acc => digitsToNat cs (acc * 10 + (c.toNat - '0'.toNat))

/-- Python's `int(s)` on a character list, restricted to an optional single
sign followed by decimal digits (underscore separators and surrounding
whitespace, which never occur in the inputs considered here, are not
modelled and yield `none`). -/
def pyIntCore : List Char → Option Int
  | [] => none
  | '+' :: cs =>
    if !cs.isEmpty && cs.all isDigitCh then some (digitsToNat cs 0) else none
  | '-' :: cs =>
    if !cs.isEmpty && cs.all isDigitCh then some (-(digitsToNat cs 0 : Int)) else none
  | cs =>
    if cs.all isDigitCh then some (digitsToNat cs 0) else none

/-- Python's `int(s)`, the conversion applied by `type=int`. -/
def pyInt (s : String) : Option Int := pyIntCore s.data

/-- argparse's negative-number matcher `^-\d+$`: since this parser declares no
options that look like negative numbers, such a token is a positional. -/
def isNegNumber (s : String) : Bool :=
  match s.data with
  | '-' :: cs => !cs.isEmpty && cs.all isDigitCh
  | _ => false

/-- argparse classification of a token as an optional argument: it starts with
`-`, has at least two characters, is not a negative number and contains no
space. -/
def isOptionLike (s : String) : Bool :=
  match s.data with
  | '-' :: _ :: _ => !(isNegNumber s) && !(s.data.contains ' ')
  | _ => false

/-- Tokens recognised as the declared flag `--ssl`: the flag itself and its
unambiguous abbreviations (argparse `allow_abbrev`, on by default). -/
def matchesSslFlag (s : String) : Bool :=
  s == "--ssl" || s == "--ss" || s == "--s"

/-- One pass over `argv` splitting it into positionals, the `--ssl` flag, and
unrecognised option-like tokens, honouring a bare `--` separator. -/
def classifyArgs : List String → Bool → List String × Bool × List String
  | [], _ => ([], false, [])
  | a :: rest, afterDD =>
    let r := classifyArgs rest (afterDD || a == "--")
    if afterDD then (a :: r.1, r.2.1, r.2.2)
    else if a == "--" then r
    else if matchesSslFlag a then (r.1, true, r.2.2)
    else if isOptionLike a then (r.1, r.2.1, a :: r.2.2)
    else (a :: r.1, r.2.1, r.2.2)

/-- Result of a successful parse: the startup configuration. -/
structure Args where
  port : Int
  ssl : Bool
deriving DecidableEq

/-- The argparse failure modes reachable for this parser.  Each is reported to
the console together with the usage text, and the process exits with
status 2. -/
inductive ParseError where
  | missingPort
  | invalidPort (arg : String)
  | unrecognizedArguments (args : List String)
deriving DecidableEq

/-- Embedding of `parser.parse_args()` for the parser of `__main__`:
the first positional is converted by `int`; a missing positional, a
positional that is not an integer, extra positionals, and unrecognised
option-like tokens are errors. -/
def parse_args (argv : List String) : Except ParseError Args :=
  let c := classifyArgs argv false
  match c.1 with
  | [] => .error .missingPort
  | p :: rest =>
    match pyInt p with
    | none => .error (.invalidPort p)
    | some n =>
      if rest.isEmpty && c.2.2.isEmpty then .ok ⟨n, c.2.1⟩
      else .error (.unrecognizedArguments (rest ++ c.2.2))

/-! ### The server (`create_test_server`, source lines 7-87) -/

/-- The parts of the outside world `create_test_server` touches: whether the
TCP bind/listen on `(\"0.0.0.0\", port)` succeeds for an in-range port, and
the TLS material on disk read by `ssl.wrap_socket`. -/
structure Env where
  bindOk : Bool
  keyPemExists : Bool
  certPemExists : Bool
  keyMatchesCert : Bool
deriving DecidableEq

/-- The fatal startup exceptions: `OverflowError` from `socket.bind` for a
port outside 0-65535, `OSError` from bind/listen (port in use, permission
denied), and the `ssl.wrap_socket` failures (missing key.pem/cert.pem,
mismatched pair).  All are uncaught, so the interpreter prints a traceback
and exits with status 1. -/
inductive StartupError where
  | overflowError
  | bindError
  | tlsConfigError
deriving DecidableEq

/-- One event observed by the accept loop: a GET request, a per-connection
error (abrupt client disconnect while handling, or a failed TLS handshake in
`accept` — both `OSError`s that the standard-library loop catches), or a
KeyboardInterrupt delivered to the process. -/
inductive ServerEvent where
  | request (req : GetRequest)
  | connError
  | interrupt
deriving DecidableEq

/-- Embedding of `httpd.serve_forever()` for this handler class: requests are
handled one at a time by `do_GET`; per-connection errors are swallowed
(`handle_error` / the `except OSError` around `get_request`) and the loop
continues; a KeyboardInterrupt propagates out of the loop.  Returns the
responses written and whether the loop was left by KeyboardInterrupt
(`false` means the loop is still blocked in `accept`). -/
def serve_forever (port : Int) (use_ssl : Bool) : List ServerEvent → List (List Write) × Bool
  | [] => ([], false)
  | .request req :: evs =>
    let r := serve_forever port use_ssl evs
    (do_GET port use_ssl req :: r.1, r.2)
  | .connError :: evs => serve_forever port use_ssl evs
  | .interrupt :: _ => ([], true)

/-- The GET requests an event list delivers before its first
KeyboardInterrupt. -/
def requestsBefore : List ServerEvent → List GetRequest
  | [] => []
  | .request req :: evs => req :: requestsBefore evs
  | .connError :: evs => requestsBefore evs
  | .interrupt :: _ => []

/-- Observable trace of one run of the process.
* `usagePrinted`: argparse wrote its usage/error text (exit status 2).
* `tracebackPrinted`: an uncaught exception printed a traceback (the
  diagnostic of a fatal startup failure, exit status 1).
* `socketOpened`: `socketserver.TCPServer(...)` succeeded, i.e. a TCP
  listening socket was bound on `0.0.0.0:port`.
* `startupError`: the fatal startup exception, if any.
* `serving`: `httpd.serve_forever()` was reached (the accept loop ran).
* `responses`: the write lists produced by `do_GET`, one per handled request.
* `shutdownMsgPrinted`: the `except KeyboardInterrupt` branch printed the
  shutdown message.
* `socketClosed`: `finally: httpd.server_close()` released the socket.
* `exitCode`: process exit status; `none` while the server is still
  running. -/
structure RunTrace where
  usagePrinted : Bool
  tracebackPrinted : Bool
  socketOpened : Bool
  startupError : Option StartupError
  serving : Bool
  responses : List (List Write)
  shutdownMsgPrinted : Bool
  socketClosed : Bool
  exitCode : Option Nat
deriving DecidableEq

/-- Embedding of `create_test_server(port, use_ssl)` (source lines 7-87).
In source order: `socketserver.TCPServer((\"0.0.0.0\", port), MyHandler)`
(OverflowError for a port outside 0-65535, OSError on bind failure — both
uncaught and fatal); for `use_ssl`, `ssl.wrap_socket(...)` on the already
bound listening socket (uncaught and fatal when key.pem or cert.pem is
missing or the pair does not match, so the bound socket never accepts a
connection); then the startup banner, `try: httpd.serve_forever()` with
`except KeyboardInterrupt` printing the shutdown message and `finally:
httpd.server_close()`. -/
def create_test_server (port : Int) (use_ssl : Bool) (env : Env)
    (events : List ServerEvent) : RunTrace :=
  if port < 0 ∨ 65535 < port then
    ⟨false, true, false, some .overflowError, false, [], false, false, some 1⟩
  else if !env.bindOk then
    ⟨false, true, false, some .bindError, false, [], false, false, some 1⟩
  else if use_ssl && !(env.keyPemExists && env.certPemExists && env.keyMatchesCert) then
    ⟨false, true, true, some .tlsConfigError, false, [], false, false, some 1⟩
  else
    let r := serve_forever port use_ssl events
    ⟨false, false, true, none, true, r.1,
      r.2, r.2, if r.2 then some 0 else none⟩

/-- Embedding of the `__main__` block (source lines 89-101): parse the
command line — on a parse error argparse prints usage plus the error and the
process exits with status 2 before any server object exists — and otherwise
run `create_test_server(args.port, args.ssl)`. -/
def main_block (argv : List String) (env : Env)
    (events : List ServerEvent) : RunTrace :=
  match parse_args argv with
  | .error _ => ⟨true, false, false, none, false, [], false, false, some 2⟩
  | .ok a => create_test_server a.port a.ssl env events

/-! ### Lemmas about the substring test -/

lemma isPrefixCh_self_append (p r : List Char) : isPrefixCh p (p ++ r) = true := by
  induction p with
  | nil => rfl
  | cons c p ih => simp [isPrefixCh, ih]

lemma isPrefixCh_self (p : List Char) : isPrefixCh p p = true := by
  have h := isPrefixCh_self_append p []
  rwa [List.append_nil] at h

lemma containsSub_of_isPrefixCh (p s : List Char) (h : isPrefixCh p s = true) :
    containsSub p s = true := by
  cases s with
  | nil => exact h
  | cons c s => simp [containsSub, h]

lemma containsSub_cons (p : List Char) (c : Char) (s : List Char)
    (h : containsSub p s = true) : containsSub p (c :: s) = true := by
  simp [containsSub, h]

lemma containsSub_append_right (p s t : List Char) (h : containsSub p t = true) :
    containsSub p (s ++ t) = true := by
  induction s with
  | nil => exact h
  | cons c s ih => exact containsSub_cons p c _ ih

lemma containsSub_self_append (p r : List Char) : containsSub p (p ++ r) = true :=
  containsSub_of_isPrefixCh p (p ++ r) (isPrefixCh_self_append p r)

lemma containsSub_sandwich (pat a r : List Char) :
    containsSub pat (a ++ (pat ++ r)) = true :=
  containsSub_append_right pat a (pat ++ r) (containsSub_self_append pat r)

lemma isPrefixCh_append_split (p x b : List Char) (h : isPrefixCh p (x ++ b) = true) :
    isPrefixCh p x = true ∨ ∃ p2, p = x ++ p2 ∧ isPrefixCh p2 b = true := by
  induction x generalizing p with
  | nil => exact Or.inr ⟨p, rfl, h⟩
  | cons y x ih =>
    cases p with
    | nil => exact Or.inl rfl
    | cons q p =>
      rw [List.cons_append] at h
      unfold isPrefixCh at h
      simp only [Bool.and_eq_true] at h
      obtain ⟨hq, hrest⟩ := h
      rcases ih p hrest with h1 | ⟨p2, hp2, hb⟩
      · left
        unfold isPrefixCh
        rw [hq, h1, Bool.and_self]
      · right
        refine ⟨p2, ?_, hb⟩
        rw [hp2, List.cons_append, eq_of_beq hq]

lemma containsSub_append_split (p a b : List Char) (h : containsSub p (a ++ b) = true) :
    containsSub p a = true ∨ containsSub p b = true ∨
      ∃ p1 p2, p1 ++ p2 = p ∧ p1 ≠ [] ∧ p2 ≠ [] ∧ (∃ t, a = t ++ p1) ∧
        isPrefixCh p2 b = true := by
  induction a with
  | nil => exact Or.inr (Or.inl h)
  | cons c a ih =>
    rw [List.cons_append] at h
    unfold containsSub at h
    simp only [Bool.or_eq_true] at h
    rcases h with hpre | hrec
    · rw [← List.cons_append] at hpre
      rcases isPrefixCh_append_split p (c :: a) b hpre with h1 | ⟨p2, hp2, hb⟩
      · exact Or.inl (containsSub_of_isPrefixCh _ _ h1)
      · cases p2 with
        | nil =>
          rw [List.append_nil] at hp2
          left
          apply containsSub_of_isPrefixCh
          rw [hp2]
          exact isPrefixCh_self (c :: a)
        | cons d p2 =>
          exact Or.inr (Or.inr ⟨c :: a, d :: p2, hp2.symm, by simp, by simp, ⟨[], rfl⟩, hb⟩)
    · rcases ih hrec with h1 | h2 | ⟨p1, p2, hp, h1n, h2n, ⟨t, ht⟩, hb⟩
      · exact Or.inl (containsSub_cons _ _ _ h1)
      · exact Or.inr (Or.inl h2)
      · exact Or.inr (Or.inr ⟨p1, p2, hp, h1n, h2n, ⟨c :: t, by rw [ht, List.cons_append]⟩, hb⟩)

lemma head?_append_left (a b : List Char) (h : a ≠ []) : (a ++ b).head? = a.head? := by
  cases a with
  | nil => exact absurd rfl h
  | cons c a => rfl

lemma getLast?_append_right (t p : List Char) (h : p ≠ []) :
    (t ++ p).getLast? = p.getLast? := by
  rw [← List.head?_reverse, ← List.head?_reverse, List.reverse_append,
    head?_append_left _ _ (by simpa using h)]

lemma head_of_isPrefixCh (c : Char) (p b : List Char)
    (h : isPrefixCh (c :: p) b = true) : b.head? = some c := by
  cases b with
  | nil => exact absurd h (by simp [isPrefixCh])
  | cons d bs =>
    unfold isPrefixCh at h
    simp only [Bool.and_eq_true] at h
    exact congrArg some (eq_of_beq h.1).symm

/-- The character list of the string `"HTTPS"`. -/
def pat5 : List Char := ['H', 'T', 'T', 'P', 'S']

lemma pat5_data : "HTTPS".data = pat5 := rfl

lemma splits5 (p1 p2 : List Char) (hp : p1 ++ p2 = pat5) (h1 : p1 ≠ []) (h2 : p2 ≠ []) :
    (p1 = ['H'] ∧ p2 = ['T', 'T', 'P', 'S']) ∨
    (p1 = ['H', 'T'] ∧ p2 = ['T', 'P', 'S']) ∨
    (p1 = ['H', 'T', 'T'] ∧ p2 = ['P', 'S']) ∨
    (p1 = ['H', 'T', 'T', 'P'] ∧ p2 = ['S']) := by
  rcases p1 with - | ⟨a, - | ⟨b, - | ⟨c, - | ⟨d, - | ⟨e, p1⟩⟩⟩⟩⟩ <;>
    simp_all [pat5, List.cons_append]

/-- `"HTTPS"` cannot occur in `a ++ b` when it occurs in neither part and `a`
does not end in `H`, `T` or `P` (so no occurrence straddles the boundary). -/
lemma contains5_append_of_getLast (a b : List Char)
    (ha : containsSub pat5 a = false) (hb : containsSub pat5 b = false)
    (h1 : a.getLast? ≠ some 'H') (h2 : a.getLast? ≠ some 'T')
    (h3 : a.getLast? ≠ some 'P') :
    containsSub pat5 (a ++ b) = false := by
  rw [Bool.eq_false_iff]
  intro hc
  rcases containsSub_append_split pat5 a b hc with h | h | ⟨p1, p2, hp, h1n, h2n, ⟨t, ht⟩, -⟩
  · rw [ha] at h; exact Bool.false_ne_true h
  · rw [hb] at h; exact Bool.false_ne_true h
  · have hlast : a.getLast? = p1.getLast? := by
      rw [ht]; exact getLast?_append_right t p1 h1n
    rcases splits5 p1 p2 hp h1n h2n with ⟨e1, -⟩ | ⟨e1, -⟩ | ⟨e1, -⟩ | ⟨e1, -⟩ <;>
      rw [e1] at hlast
    · exact h1 hlast
    · exact h2 hlast
    · exact h2 hlast
    · exact h3 hlast

/-- `"HTTPS"` cannot occur in `a ++ b` when it occurs in neither part and `b`
does not start with `T`, `P` or `S` (so no occurrence straddles the
boundary). -/
lemma contains5_append_of_head (a b : List Char)
    (ha : containsSub pat5 a = false) (hb : containsSub pat5 b = false)
    (h1 : b.head? ≠ some 'T') (h2 : b.head? ≠ some 'P') (h3 : b.head? ≠ some 'S') :
    containsSub pat5 (a ++ b) = false := by
  rw [Bool.eq_false_iff]
  intro hc
  rcases containsSub_append_split pat5 a b hc with h | h | ⟨p1, p2, hp, h1n, h2n, -, hpre⟩
  · rw [ha] at h; exact Bool.false_ne_true h
  · rw [hb] at h; exact Bool.false_ne_true h
  · rcases splits5 p1 p2 hp h1n h2n with ⟨-, e2⟩ | ⟨-, e2⟩ | ⟨-, e2⟩ | ⟨-, e2⟩ <;>
      rw [e2] at hpre
    · exact h1 (head_of_isPrefixCh _ _ _ hpre)
    · exact h1 (head_of_isPrefixCh _ _ _ hpre)
    · exact h2 (head_of_isPrefixCh _ _ _ hpre)
    · exact h3 (head_of_isPrefixCh _ _ _ hpre)

/-- The body as a right-nested concatenation of its template chunks and
interpolated fields. -/
lemma renderBody_data (port : Int) (hostname local_ip : String) (use_ssl : Bool)
    (clientIP : String) :
    (renderBody port hostname local_ip use_ssl clientIP).data =
      chunk0.data ++ ((toString port).data ++ (chunk1.data ++ (hostname.data ++
        (chunk2.data ++ (local_ip.data ++ (chunk3.data ++ ((toString port).data ++
          (chunk4.data ++ ((if use_ssl then "HTTPS" else "HTTP").data ++
            (chunk5.data ++ (clientIP.data ++ chunk6.data))))))))))) := by
  simp only [renderBody, String.data_append, List.append_assoc]

/-! ### Lemmas about the accept loop and startup -/

lemma serve_forever_drop_connError (port : Int) (use_ssl : Bool)
    (pre post : List ServerEvent) :
    serve_forever port use_ssl (pre ++ ServerEvent.connError :: post) =
      serve_forever port use_ssl (pre ++ post) := by
  induction pre with
  | nil => rfl
  | cons e pre ih =>
    cases e with
    | request req =>
      simp only [List.cons_append, serve_forever, List.append_eq, ih]
    | connError =>
      simp only [List.cons_append, serve_forever, List.append_eq, ih]
    | interrupt => rfl

lemma serve_forever_no_interrupt (port : Int) (use_ssl : Bool)
    (pre post : List ServerEvent) (h : ServerEvent.interrupt ∉ pre) :
    serve_forever port use_ssl (pre ++ ServerEvent.interrupt :: post) =
      ((requestsBefore pre).map (do_GET port use_ssl), true) := by
  induction pre with
  | nil => rfl
  | cons e pre ih =>
    have hnp : ServerEvent.interrupt ∉ pre := fun hm => h (List.mem_cons_of_mem _ hm)
    cases e with
    | request req =>
      simp only [List.cons_append, serve_forever, List.append_eq, requestsBefore,
        List.map_cons, ih hnp]
    | connError =>
      simp only [List.cons_append, serve_forever, List.append_eq, requestsBefore, ih hnp]
    | interrupt => exact absurd (List.mem_cons_self _ _) h

lemma serve_forever_responses (port : Int) (use_ssl : Bool) (evs : List ServerEvent) :
    (serve_forever port use_ssl evs).1 =
      (requestsBefore evs).map (do_GET port use_ssl) := by
  induction evs with
  | nil => rfl
  | cons e evs ih =>
    cases e with
    | request req => simp only [serve_forever, requestsBefore, List.map_cons, ih]
    | connError => simp only [serve_forever, requestsBefore, ih]
    | interrupt => rfl

/-- A successful startup (in-range port, bind succeeds, TLS material present
when requested) reaches the accept loop; the rest of the trace is determined
by `serve_forever`. -/
lemma create_test_server_serving (port : Int) (use_ssl : Bool) (env : Env)
    (events : List ServerEvent) (hp0 : 0 ≤ port) (hp1 : port ≤ 65535)
    (hb : env.bindOk = true)
    (htls : use_ssl = true →
      (env.keyPemExists && env.certPemExists && env.keyMatchesCert) = true) :
    create_test_server port use_ssl env events =
      ⟨false, false, true, none, true, (serve_forever port use_ssl events).1,
        (serve_forever port use_ssl events).2, (serve_forever port use_ssl events).2,
        if (serve_forever port use_ssl events).2 then some 0 else none⟩ := by
  have h3 : ¬ ((use_ssl &&
      !(env.keyPemExists && env.certPemExists && env.keyMatchesCert)) = true) := by
    cases hu : use_ssl
    · simp [hu]
    · have hk := htls hu
      simp only [Bool.and_eq_true] at hk
      simp [hu, hk.1.1, hk.1.2, hk.2]
  unfold create_test_server
  rw [if_neg (by omega), if_neg (by simp [hb]), if_neg h3]

/-! ### Lemmas about command-line parsing -/

/-- A token accepted by `int` is a plain positional: it is none of `--`, the
`--ssl` flag or its abbreviations, and is not option-like. -/
lemma pyInt_token_shape (s : String) (p : Int) (h : pyInt s = some p) :
    (s == "--") = false ∧ matchesSslFlag s = false ∧ isOptionLike s = false := by
  have hne : ∀ t : String, pyInt t = none → (s == t) = false := by
    intro t ht
    cases hb : s == t with
    | false => rfl
    | true =>
      have hst : s = t := eq_of_beq hb
      rw [hst, ht] at h
      exact Option.noConfusion h
  refine ⟨hne "--" rfl, ?_, ?_⟩
  · unfold matchesSslFlag
    rw [hne "--ssl" rfl, hne "--ss" rfl, hne "--s" rfl]
    rfl
  · have h' : pyIntCore s.data = some p := h
    rcases hd : s.data with - | ⟨c, cs⟩
    · simp [isOptionLike, hd]
    · rw [hd] at h'
      by_cases hc : c = '-'
      · subst hc
        have hcond : (!cs.isEmpty && cs.all isDigitCh) = true := by
          by_contra hfalse
          have h'' : (if !cs.isEmpty && cs.all isDigitCh then
              some (-(digitsToNat cs 0 : Int)) else none) = some p := h'
          rw [if_neg hfalse] at h''
          exact Option.noConfusion h''
        have hneg : isNegNumber s = true := by
          unfold isNegNumber
          rw [hd]
          exact hcond
        unfold isOptionLike
        rw [hd]
        split
        · rw [hneg]
          rfl
        · rfl
      · unfold isOptionLike
        rw [hd]
        split
        · rename_i heq
          rw [List.cons.injEq] at heq
          exact absurd heq.1 hc
        · rfl

lemma parse_args_single (s : String) (p : Int) (h : pyInt s = some p) :
    parse_args [s] = .ok ⟨p, false⟩ := by
  obtain ⟨h1, h2, h3⟩ := pyInt_token_shape s p h
  simp [parse_args, classifyArgs, h1, h2, h3, h]

lemma parse_args_sslFlag (s : String) (p : Int) (h : pyInt s = some p) :
    parse_args [s, "--ssl"] = .ok ⟨p, true⟩ := by
  obtain ⟨h1, h2, h3⟩ := pyInt_token_shape s p h
  simp [parse_args, classifyArgs, h1, h2, h3, h,
    show ("--ssl" == "--") = false from rfl,
    show matchesSslFlag "--ssl" = true from rfl]

lemma parse_args_dashSsl (s : String) (p : Int) (h : pyInt s = some p) :
    parse_args [s, "-ssl"] = .error (.unrecognizedArguments ["-ssl"]) := by
  obtain ⟨h1, h2, h3⟩ := pyInt_token_shape s p h
  simp [parse_args, classifyArgs, h1, h2, h3, h,
    show ("-ssl" == "--") = false from rfl,
    show matchesSslFlag "-ssl" = false from rfl,
    show isOptionLike "-ssl" = true from rfl]

/-! ### The claims -/

/-- Claim C1: for every incoming HTTP GET request — on any path, from any
client — handled once the server is listening, the handler responds with
status 200, a `Content-type` header whose value is
`text/html; charset=utf-8`, and an HTML body that contains the configured
listening port, the server hostname, the server's local IP, the protocol
label (`HTTPS` if started with TLS, otherwise `HTTP`), and the client's IP
address as seen by the transport layer. -/
theorem claim_C1 (port : Int) (use_ssl : Bool) (path clientIP : String)
    (hi : HostInfo) :
    (do_GET port use_ssl ⟨path, clientIP, some hi⟩).head? = some (Write.status 200) ∧
    Write.header "Content-type" "text/html; charset=utf-8"
      ∈ do_GET port use_ssl ⟨path, clientIP, some hi⟩ ∧
    ∃ b, Write.body b ∈ do_GET port use_ssl ⟨path, clientIP, some hi⟩ ∧
      containsS (toString port) b = true ∧
      containsS hi.hostname b = true ∧
      containsS hi.local_ip b = true ∧
      containsS (if use_ssl then "HTTPS" else "HTTP") b = true ∧
      containsS clientIP b = true := by
  refine ⟨rfl, by simp [do_GET], renderBody port hi.hostname hi.local_ip use_ssl clientIP,
    by simp [do_GET], ?_, ?_, ?_, ?_, ?_⟩
  · unfold containsS
    rw [renderBody_data]
    exact containsSub_sandwich _ _ _
  · unfold containsS
    rw [renderBody_data]
    iterate 3 apply containsSub_append_right
    exact containsSub_self_append _ _
  · unfold containsS
    rw [renderBody_data]
    iterate 5 apply containsSub_append_right
    exact containsSub_self_append _ _
  · unfold containsS
    rw [renderBody_data]
    iterate 9 apply containsSub_append_right
    exact containsSub_self_append _ _
  · unfold containsS
    rw [renderBody_data]
    iterate 11 apply containsSub_append_right
    exact containsSub_self_append _ _

/-- Claim C10: in the GET handler the 200 status line and the Content-type
header are written before the per-request hostname/local-IP resolution is
attempted, so on a request for which resolution raises the client has
already been sent the 200 status and the headers but receives no HTML
body. -/
theorem claim_C10 (port : Int) (use_ssl : Bool) (path clientIP : String)
    (r : Option HostInfo) :
    (do_GET port use_ssl ⟨path, clientIP, r⟩).take 2 =
      [Write.status 200, Write.header "Content-type" "text/html; charset=utf-8"] ∧
    do_GET port use_ssl ⟨path, clientIP, none⟩ =
      [Write.status 200, Write.header "Content-type" "text/html; charset=utf-8"] := by
  constructor
  · cases r <;> rfl
  · rfl

/-- Claim C2: when the server is started without TLS the body returned for a
GET request contains the substring `HTTP` and the port digits, but — provided
none of the interpolated dynamic fields (port digits, hostname, local IP,
client IP) itself contains `HTTPS` — it does not contain the substring
`HTTPS` anywhere. -/
theorem claim_C2 (port : Int) (path clientIP : String) (hi : HostInfo)
    (hp : containsS "HTTPS" (toString port) = false)
    (hh : containsS "HTTPS" hi.hostname = false)
    (hl : containsS "HTTPS" hi.local_ip = false)
    (hc : containsS "HTTPS" clientIP = false) :
    ∃ b, Write.body b ∈ do_GET port false ⟨path, clientIP, some hi⟩ ∧
      containsS "HTTP" b = true ∧
      containsS (toString port) b = true ∧
      containsS "HTTPS" b = false := by
  refine ⟨renderBody port hi.hostname hi.local_ip false clientIP,
    by simp [do_GET], ?_, ?_, ?_⟩
  · unfold containsS
    rw [renderBody_data]
    iterate 9 apply containsSub_append_right
    exact containsSub_self_append _ _
  · unfold containsS
    rw [renderBody_data]
    exact containsSub_sandwich _ _ _
  · have hp' : containsSub pat5 (toString port).data = false := hp
    have hh' : containsSub pat5 hi.hostname.data = false := hh
    have hl' : containsSub pat5 hi.local_ip.data = false := hl
    have hc' : containsSub pat5 clientIP.data = false := hc
    have k0 : containsSub pat5 chunk0.data = false := by decide
    have k1 : containsSub pat5 chunk1.data = false := by decide
    have k2 : containsSub pat5 chunk2.data = false := by decide
    have k3 : containsSub pat5 chunk3.data = false := by decide
    have k4 : containsSub pat5 chunk4.data = false := by decide
    have k5 : containsSub pat5 chunk5.data = false := by decide
    have k6 : containsSub pat5 chunk6.data = false := by decide
    have kh : containsSub pat5 "HTTP".data = false := by decide
    have e1 : ∀ x : List Char, (chunk1.data ++ x).head? = some ' ' := fun x => rfl
    have e2 : ∀ x : List Char, (chunk2.data ++ x).head? = some '<' := fun x => rfl
    have e3 : ∀ x : List Char, (chunk3.data ++ x).head? = some '<' := fun x => rfl
    have e4 : ∀ x : List Char, (chunk4.data ++ x).head? = some '<' := fun x => rfl
    have e5 : ∀ x : List Char, (chunk5.data ++ x).head? = some '<' := fun x => rfl
    have n12 := contains5_append_of_head clientIP.data chunk6.data hc' k6
      (by decide) (by decide) (by decide)
    have n11 := contains5_append_of_getLast chunk5.data _ k5 n12
      (by decide) (by decide) (by decide)
    have n10 := contains5_append_of_head "HTTP".data _ kh n11
      (by rw [e5]; decide) (by rw [e5]; decide) (by rw [e5]; decide)
    have n9 := contains5_append_of_getLast chunk4.data _ k4 n10
      (by decide) (by decide) (by decide)
    have n8 := contains5_append_of_head (toString port).data _ hp' n9
      (by rw [e4]; decide) (by rw [e4]; decide) (by rw [e4]; decide)
    have n7 := contains5_append_of_getLast chunk3.data _ k3 n8
      (by decide) (by decide) (by decide)
    have n6 := contains5_append_of_head hi.local_ip.data _ hl' n7
      (by rw [e3]; decide) (by rw [e3]; decide) (by rw [e3]; decide)
    have n5 := contains5_append_of_getLast chunk2.data _ k2 n6
      (by decide) (by decide) (by decide)
    have n4 := contains5_append_of_head hi.hostname.data _ hh' n5
      (by rw [e2]; decide) (by rw [e2]; decide) (by rw [e2]; decide)
    have n3 := contains5_append_of_getLast chunk1.data _ k1 n4
      (by decide) (by decide) (by decide)
    have n2 := contains5_append_of_head (toString port).data _ hp' n3
      (by rw [e1]; decide) (by rw [e1]; decide) (by rw [e1]; decide)
    have n1 := contains5_append_of_getLast chunk0.data _ k0 n2
      (by decide) (by decide) (by decide)
    unfold containsS
    rw [renderBody_data]
    exact n1

/-- Witness for claim C2 at the spec's example configuration: port 8080
without TLS, concrete host and client data. -/
theorem claim_C2_witness :
    containsS "HTTPS" (toString (8080 : Int)) = false ∧
    containsS "HTTPS" "test-host" = false ∧
    containsS "HTTPS" "192.168.1.100" = false ∧
    containsS "HTTPS" "203.0.113.7" = false ∧
    ∃ b, Write.body b ∈ do_GET 8080 false ⟨"/anything", "203.0.113.7",
        some ⟨"test-host", "192.168.1.100"⟩⟩ ∧
      containsS "HTTP" b = true ∧
      containsS (toString (8080 : Int)) b = true ∧
      containsS "HTTPS" b = false :=
  ⟨by decide, by decide, by decide, by decide,
    claim_C2 8080 "/anything" "203.0.113.7" ⟨"test-host", "192.168.1.100"⟩
      (by decide) (by decide) (by decide) (by decide)⟩

/-- Claim C3: when the server is started with TLS and `key.pem` is missing
(the bind itself being otherwise possible), startup fails with the TLS
configuration error, the process exits non-zero, and the accept loop is never
entered — no connection is ever accepted, so no plaintext traffic is ever
served. -/
theorem claim_C3 (port : Int) (env : Env) (events : List ServerEvent)
    (hp0 : 0 ≤ port) (hp1 : port ≤ 65535) (hb : env.bindOk = true)
    (hkey : env.keyPemExists = false) :
    (create_test_server port true env events).startupError
        = some StartupError.tlsConfigError ∧
    (create_test_server port true env events).exitCode = some 1 ∧
    (create_test_server port true env events).serving = false ∧
    (create_test_server port true env events).responses = [] := by
  have hc : (true && !(env.keyPemExists && env.certPemExists && env.keyMatchesCert))
      = true := by
    simp [hkey]
  unfold create_test_server
  rw [if_neg (by omega), if_neg (by simp [hb]), if_pos hc]
  exact ⟨rfl, rfl, rfl, rfl⟩

/-- Witness for claim C3: TLS startup on port 8443 with `key.pem` missing. -/
theorem claim_C3_witness :
    (0 : Int) ≤ 8443 ∧ (8443 : Int) ≤ 65535 ∧
    (Env.mk true false true true).bindOk = true ∧
    (Env.mk true false true true).keyPemExists = false ∧
    ((create_test_server 8443 true (Env.mk true false true true) []).startupError
        = some StartupError.tlsConfigError ∧
      (create_test_server 8443 true (Env.mk true false true true) []).exitCode = some 1 ∧
      (create_test_server 8443 true (Env.mk true false true true) []).serving = false ∧
      (create_test_server 8443 true (Env.mk true false true true) []).responses = []) :=
  ⟨by decide, by decide, rfl, rfl,
    claim_C3 8443 (Env.mk true false true true) [] (by decide) (by decide) rfl rfl⟩

/-- Claim C5: if binding the listening socket fails (port already in use, or
permission denied), the failure is a fatal startup error: a diagnostic
traceback is printed, the process exits non-zero, the accept loop is never
entered and no request is ever served. -/
theorem claim_C5 (port : Int) (use_ssl : Bool) (env : Env)
    (events : List ServerEvent) (hp0 : 0 ≤ port) (hp1 : port ≤ 65535)
    (hb : env.bindOk = false) :
    (create_test_server port use_ssl env events).startupError
        = some StartupError.bindError ∧
    (create_test_server port use_ssl env events).exitCode = some 1 ∧
    (create_test_server port use_ssl env events).tracebackPrinted = true ∧
    (create_test_server port use_ssl env events).serving = false ∧
    (create_test_server port use_ssl env events).responses = [] := by
  unfold create_test_server
  rw [if_neg (by omega), if_pos (by simp [hb])]
  exact ⟨rfl, rfl, rfl, rfl, rfl⟩

/-- Witness for claim C5: the bind on port 80 fails (privileged port). -/
theorem claim_C5_witness :
    (0 : Int) ≤ 80 ∧ (80 : Int) ≤ 65535 ∧
    (Env.mk false true true true).bindOk = false ∧
    ((create_test_server 80 false (Env.mk false true true true) []).startupError
        = some StartupError.bindError ∧
      (create_test_server 80 false (Env.mk false true true true) []).exitCode = some 1 ∧
      (create_test_server 80 false (Env.mk false true true true) []).tracebackPrinted
          = true ∧
      (create_test_server 80 false (Env.mk false true true true) []).serving = false ∧
      (create_test_server 80 false (Env.mk false true true true) []).responses = []) :=
  ⟨by decide, by decide, rfl,
    claim_C5 80 false (Env.mk false true true true) [] (by decide) (by decide) rfl⟩

/-- Claim C6: when a KeyboardInterrupt arrives while the server is running,
the shutdown message is printed, the listening socket is released by
`server_close`, the process exits with status 0, and no connection delivered
after the interrupt is served — the responses are exactly those of the
requests that arrived before the interrupt. -/
theorem claim_C6 (port : Int) (use_ssl : Bool) (env : Env)
    (pre post : List ServerEvent) (hp0 : 0 ≤ port) (hp1 : port ≤ 65535)
    (hb : env.bindOk = true)
    (htls : use_ssl = true →
      (env.keyPemExists && env.certPemExists && env.keyMatchesCert) = true)
    (hpre : ServerEvent.interrupt ∉ pre) :
    (create_test_server port use_ssl env
        (pre ++ ServerEvent.interrupt :: post)).exitCode = some 0 ∧
    (create_test_server port use_ssl env
        (pre ++ ServerEvent.interrupt :: post)).shutdownMsgPrinted = true ∧
    (create_test_server port use_ssl env
        (pre ++ ServerEvent.interrupt :: post)).socketClosed = true ∧
    (create_test_server port use_ssl env
        (pre ++ ServerEvent.interrupt :: post)).responses =
      (requestsBefore pre).map (do_GET port use_ssl) := by
  have hs := serve_forever_no_interrupt port use_ssl pre post hpre
  refine ⟨?_, ?_, ?_, ?_⟩
  · rw [create_test_server_serving port use_ssl env _ hp0 hp1 hb htls, hs]
    rfl
  · rw [create_test_server_serving port use_ssl env _ hp0 hp1 hb htls, hs]
  · rw [create_test_server_serving port use_ssl env _ hp0 hp1 hb htls, hs]
  · rw [create_test_server_serving port use_ssl env _ hp0 hp1 hb htls, hs]

/-- Witness for claim C6: one request is served, then the interrupt arrives,
and a request queued after it is never served. -/
theorem claim_C6_witness :
    (0 : Int) ≤ 8080 ∧ (8080 : Int) ≤ 65535 ∧
    (Env.mk true true true true).bindOk = true ∧
    (false = true →
      ((Env.mk true true true true).keyPemExists &&
        (Env.mk true true true true).certPemExists &&
        (Env.mk true true true true).keyMatchesCert) = true) ∧
    ServerEvent.interrupt ∉
      [ServerEvent.request (GetRequest.mk "/" "9.9.9.9" (some (HostInfo.mk "h" "10.0.0.2")))] ∧
    ((create_test_server 8080 false (Env.mk true true true true)
        ([ServerEvent.request (GetRequest.mk "/" "9.9.9.9" (some (HostInfo.mk "h" "10.0.0.2")))] ++
          ServerEvent.interrupt ::
            [ServerEvent.request (GetRequest.mk "/" "8.8.8.8" (some (HostInfo.mk "h" "10.0.0.2")))])).exitCode
        = some 0 ∧
      (create_test_server 8080 false (Env.mk true true true true)
        ([ServerEvent.request (GetRequest.mk "/" "9.9.9.9" (some (HostInfo.mk "h" "10.0.0.2")))] ++
          ServerEvent.interrupt ::
            [ServerEvent.request (GetRequest.mk "/" "8.8.8.8" (some (HostInfo.mk "h" "10.0.0.2")))])).shutdownMsgPrinted
        = true ∧
      (create_test_server 8080 false (Env.mk true true true true)
        ([ServerEvent.request (GetRequest.mk "/" "9.9.9.9" (some (HostInfo.mk "h" "10.0.0.2")))] ++
          ServerEvent.interrupt ::
            [ServerEvent.request (GetRequest.mk "/" "8.8.8.8" (some (HostInfo.mk "h" "10.0.0.2")))])).socketClosed
        = true ∧
      (create_test_server 8080 false (Env.mk true true true true)
        ([ServerEvent.request (GetRequest.mk "/" "9.9.9.9" (some (HostInfo.mk "h" "10.0.0.2")))] ++
          ServerEvent.interrupt ::
            [ServerEvent.request (GetRequest.mk "/" "8.8.8.8" (some (HostInfo.mk "h" "10.0.0.2")))])).responses
        = (requestsBefore
            [ServerEvent.request (GetRequest.mk "/" "9.9.9.9" (some (HostInfo.mk "h" "10.0.0.2")))]).map
            (do_GET 8080 false)) :=
  ⟨by decide, by decide, rfl, fun h => Bool.noConfusion h, by decide,
    claim_C6 8080 false (Env.mk true true true true)
      [ServerEvent.request (GetRequest.mk "/" "9.9.9.9" (some (HostInfo.mk "h" "10.0.0.2")))]
      [ServerEvent.request (GetRequest.mk "/" "8.8.8.8" (some (HostInfo.mk "h" "10.0.0.2")))]
      (by decide) (by decide) rfl (fun h => Bool.noConfusion h) (by decide)⟩

/-- Claim C7: a per-connection error (abrupt client disconnect, failed TLS
handshake) is non-fatal: the whole run trace with the failing connection is
identical to the run trace without it — the process does not crash and every
other connection is served exactly as before. -/
theorem claim_C7 (port : Int) (use_ssl : Bool) (env : Env)
    (pre post : List ServerEvent) :
    create_test_server port use_ssl env (pre ++ ServerEvent.connError :: post) =
      create_test_server port use_ssl env (pre ++ post) := by
  unfold create_test_server
  rw [serve_forever_drop_connError]

/-- Claim C8: the server mutates no state across requests: on any successful
startup, every response in a run is the handler — a pure function of the
immutable startup configuration — applied to that request alone, so no
request's handling can change the outcome of any other request. -/
theorem claim_C8 (port : Int) (use_ssl : Bool) (env : Env)
    (events : List ServerEvent) (hp0 : 0 ≤ port) (hp1 : port ≤ 65535)
    (hb : env.bindOk = true)
    (htls : use_ssl = true →
      (env.keyPemExists && env.certPemExists && env.keyMatchesCert) = true) :
    (create_test_server port use_ssl env events).responses =
      (requestsBefore events).map (do_GET port use_ssl) := by
  rw [create_test_server_serving port use_ssl env events hp0 hp1 hb htls]
  exact serve_forever_responses port use_ssl events

/-- Witness for claim C8: a TLS run with two requests around a connection
error. -/
theorem claim_C8_witness :
    (0 : Int) ≤ 8443 ∧ (8443 : Int) ≤ 65535 ∧
    (Env.mk true true true true).bindOk = true ∧
    (true = true →
      ((Env.mk true true true true).keyPemExists &&
        (Env.mk true true true true).certPemExists &&
        (Env.mk true true true true).keyMatchesCert) = true) ∧
    (create_test_server 8443 true (Env.mk true true true true)
        [ServerEvent.request (GetRequest.mk "/a" "9.9.9.9" (some (HostInfo.mk "h" "10.0.0.2"))),
          ServerEvent.connError,
          ServerEvent.request (GetRequest.mk "/b" "8.8.8.8" none)]).responses =
      (requestsBefore
        [ServerEvent.request (GetRequest.mk "/a" "9.9.9.9" (some (HostInfo.mk "h" "10.0.0.2"))),
          ServerEvent.connError,
          ServerEvent.request (GetRequest.mk "/b" "8.8.8.8" none)]).map
        (do_GET 8443 true) :=
  ⟨by decide, by decide, rfl, fun _ => rfl,
    claim_C8 8443 true (Env.mk true true true true)
      [ServerEvent.request (GetRequest.mk "/a" "9.9.9.9" (some (HostInfo.mk "h" "10.0.0.2"))),
        ServerEvent.connError,
        ServerEvent.request (GetRequest.mk "/b" "8.8.8.8" none)]
      (by decide) (by decide) rfl (fun _ => rfl)⟩

/-- Counterexample to claim C4 as stated: 70000 lies outside the TCP port
range 1-65535, yet argument parsing accepts it without any error or usage
text. -/
theorem claim_C4_counterexample :
    (65535 : Int) < 70000 ∧
    parse_args ["70000"] = Except.ok (Args.mk 70000 false) :=
  ⟨by decide, rfl⟩

/-- Claim C4 (amended): argument parsing does not enforce the port range —
any integer token parses successfully with no usage text.  A port below 0 or
above 65535 instead causes a fatal startup error when the server socket is
created (`OverflowError` from `socket.bind`): the process exits non-zero
without serving anything, but not through argument parsing. -/
theorem claim_C4 (s : String) (p : Int) (env : Env) (events : List ServerEvent)
    (hs : pyInt s = some p) (hout : p < 0 ∨ 65535 < p) :
    parse_args [s] = Except.ok (Args.mk p false) ∧
    (main_block [s] env events).usagePrinted = false ∧
    (main_block [s] env events).startupError = some StartupError.overflowError ∧
    (main_block [s] env events).exitCode = some 1 ∧
    (main_block [s] env events).serving = false ∧
    (main_block [s] env events).responses = [] := by
  have hp := parse_args_single s p hs
  have hm : main_block [s] env events = create_test_server p false env events := by
    unfold main_block
    rw [hp]
  have hcr : create_test_server p false env events =
      ⟨false, true, false, some StartupError.overflowError, false, [], false, false,
        some 1⟩ := by
    unfold create_test_server
    rw [if_pos hout]
  rw [hm, hcr]
  exact ⟨hp, rfl, rfl, rfl, rfl, rfl⟩

/-- Witness for the amended claim C4 at the out-of-range port 70000. -/
theorem claim_C4_witness :
    pyInt "70000" = some 70000 ∧
    ((70000 : Int) < 0 ∨ (65535 : Int) < 70000) ∧
    (parse_args ["70000"] = Except.ok (Args.mk 70000 false) ∧
      (main_block ["70000"] (Env.mk true true true true) []).usagePrinted = false ∧
      (main_block ["70000"] (Env.mk true true true true) []).startupError
          = some StartupError.overflowError ∧
      (main_block ["70000"] (Env.mk true true true true) []).exitCode = some 1 ∧
      (main_block ["70000"] (Env.mk true true true true) []).serving = false ∧
      (main_block ["70000"] (Env.mk true true true true) []).responses = []) :=
  ⟨rfl, by decide,
    claim_C4 "70000" 70000 (Env.mk true true true true) [] rfl (by decide)⟩

/-- Counterexample to claim C9 as stated: the single-dash form `-ssl` does
not enable TLS mode; it is rejected as an unrecognised argument (argparse
usage error, exit status 2). -/
theorem claim_C9_counterexample :
    parse_args ["8080", "-ssl"]
        = Except.error (ParseError.unrecognizedArguments ["-ssl"]) ∧
    parse_args ["8080", "-ssl"] ≠ Except.ok (Args.mk 8080 true) :=
  ⟨rfl, fun h => Except.noConfusion h⟩

/-- Claim C9 (amended): the TLS flag is `--ssl` only; it enables TLS mode,
and when absent the server defaults to plain HTTP.  The single-dash form
`-ssl` is not accepted: it is an unrecognised argument, reported with usage
text and a non-zero exit. -/
theorem claim_C9 (s : String) (p : Int) (hs : pyInt s = some p) :
    parse_args [s, "--ssl"] = Except.ok (Args.mk p true) ∧
    parse_args [s] = Except.ok (Args.mk p false) ∧
    parse_args [s, "-ssl"]
        = Except.error (ParseError.unrecognizedArguments ["-ssl"]) :=
  ⟨parse_args_sslFlag s p hs, parse_args_single s p hs, parse_args_dashSsl s p hs⟩

/-- Witness for the amended claim C9 at port token `8080`. -/
theorem claim_C9_witness :
    pyInt "8080" = some 8080 ∧
    (parse_args ["8080", "--ssl"] = Except.ok (Args.mk 8080 true) ∧
      parse_args ["8080"] = Except.ok (Args.mk 8080 false) ∧
      parse_args ["8080", "-ssl"]
          = Except.error (ParseError.unrecognizedArguments ["-ssl"])) :=
  ⟨rfl, claim_C9 "8080" 8080 rfl⟩

end OpenPortTest
